import Mathlib

/-!
Verification of the IP-Monitor-Dashboard repository.

The repository ships two artefacts:
* a SQLite schema (tables `ips` and `ping_history`, with `PRAGMA foreign_keys = ON`,
  a `UNIQUE` constraint on `ips.ip`, and `ON DELETE CASCADE` on `ping_history.ip_id`);
* the dashboard client `static/main.js`, which fetches `/api/check_all`, renders one
  table row per returned entry, and re-runs on page load, on the refresh button, and
  on a 30-second interval timer.

The server-side engine (prober, history store, aggregator, orchestrator) is not part
of the sources; where a claim depends on it, the corresponding definition is modelled
from the specification and marked as such in its doc comment.
-/

/-! ## Data model from the SQLite schema -/

/-- One row of the `ips` table.  Columns as declared in the schema:
`id INTEGER PRIMARY KEY`, `ip TEXT NOT NULL UNIQUE`, then nullable metadata and
denormalized status columns (`last_status TEXT`, `last_ping_ms REAL`,
`last_checked TEXT`). -/
structure IpRow where
  id : Nat
  ip : String
  name : Option String
  device_type : Option String
  importance : Option String
  remark : Option String
  last_status : Option String
  last_ping_ms : Option ℚ
  last_checked : Option String
  deriving Repr, DecidableEq

/-- One row of the `ping_history` table: `id INTEGER PRIMARY KEY`,
`ip_id INTEGER NOT NULL` with `FOREIGN KEY(ip_id) REFERENCES ips(id) ON DELETE CASCADE`,
`ts TEXT NOT NULL`, `status TEXT NOT NULL`, `ping_ms REAL` (nullable). -/
structure PingHistoryRow where
  id : Nat
  ip_id : Nat
  ts : String
  status : String
  ping_ms : Option ℚ
  deriving Repr, DecidableEq

/-- The database state: the two tables declared by the schema. -/
structure Db where
  ips : List IpRow
  ping_history : List PingHistoryRow
  deriving Repr, DecidableEq

/-- The foreign-key invariant declared by the schema (with `PRAGMA foreign_keys = ON`):
every `ping_history` row references an existing `ips` row. -/
def fkHolds (db : Db) : Prop :=
  ∀ r ∈ db.ping_history, ∃ t ∈ db.ips, t.id = r.ip_id

instance (db : Db) : Decidable (fkHolds db) := by
  unfold fkHolds; infer_instance

/-- The uniqueness invariant of `ip TEXT NOT NULL UNIQUE`: no two distinct rows of
`ips` carry the same address. -/
def addrUnique (db : Db) : Prop :=
  db.ips.Pairwise (fun a b => a.ip ≠ b.ip)

instance (db : Db) : Decidable (addrUnique db) := by
  unfold addrUnique; infer_instance

/-- Deleting a target under the schema's `ON DELETE CASCADE` (with
`PRAGMA foreign_keys = ON`): the `ips` row goes away, and SQLite cascades the delete
to every `ping_history` row whose `ip_id` references it. -/
def deleteIp (db : Db) (tid : Nat) : Db :=
  { ips := db.ips.filter (fun t => t.id ≠ tid)
  , ping_history := db.ping_history.filter (fun r => r.ip_id ≠ tid) }

/-- Inserting a row into `ips` under the schema's constraints: a plain `INSERT`
violating `UNIQUE` on `ip` (or the `id` primary key) fails with a constraint
conflict and leaves the table unchanged; otherwise the row is appended. -/
def insertIp (db : Db) (row : IpRow) : Except String Db :=
  if db.ips.any (fun t => t.ip = row.ip) then
    .error "UNIQUE constraint failed: ips.ip"
  else if db.ips.any (fun t => t.id = row.id) then
    .error "UNIQUE constraint failed: ips.id"
  else
    .ok { db with ips := db.ips ++ [row] }

/-! ## Prober and History Store (modelled from the spec) -/

/-- Modelled from the spec: the Prober is not among the source files.  §4.2: a probe
yields `status = up` with a measured non-negative latency, or `status = down` with
the latency absent; failures are represented as `down`, never raised. -/
inductive CheckOutcome where
  | up (ping_ms : ℚ)
  | down
  deriving Repr, DecidableEq

/-- Modelled from the spec: the Orchestrator's append of a probe outcome to the
History Store is not among the source files.  §3 and §4.5: a CheckRecord stores the
outcome's status, with `ping_ms` present exactly for an `up` outcome and absent for
a `down` outcome (open question in §9 resolved as "absent", i.e. SQL `NULL`). -/
def recordOfOutcome (rid ip_id : Nat) (ts : String) : CheckOutcome → PingHistoryRow
  | .up p => { id := rid, ip_id := ip_id, ts := ts, status := "up", ping_ms := some p }
  | .down => { id := rid, ip_id := ip_id, ts := ts, status := "down", ping_ms := none }

/-- Modelled from the spec: appending one CheckRecord produced by the Orchestrator
to the `ping_history` table. -/
def appendOutcome (db : Db) (rid ip_id : Nat) (ts : String) (o : CheckOutcome) : Db :=
  { db with ping_history := db.ping_history ++ [recordOfOutcome rid ip_id ts o] }

/-- The per-record invariant of §3: `ping_ms` is present exactly when the record's
status is `up`. -/
def pingPresentIffUp (r : PingHistoryRow) : Prop :=
  r.ping_ms.isSome ↔ r.status = "up"

instance (r : PingHistoryRow) : Decidable (pingPresentIffUp r) := by
  unfold pingPresentIffUp; infer_instance

/-! ## Aggregator (modelled from the spec) -/

/-- Modelled from the spec: the Aggregator (`windowStats`) is not among the source
files.  §4.4: take the most recent `windowSize` records (or fewer),
`percentage = round(100 * count(status == up) / count(records considered))` with
ties rounding half away from zero; zero records considered is the undefined
degenerate case, represented here as `none`.  For a non-negative quotient,
round-half-away-from-zero is `(2 * numerator + denominator) / (2 * denominator)`
in integer division.  Records arrive most recent first, as the History Store's
`recent` returns them. -/
def windowStats (records : List PingHistoryRow) (windowSize : Nat) : Option Nat :=
  let considered := records.take windowSize
  let n := considered.length
  let u := (considered.filter (fun r => r.status = "up")).length
  if n = 0 then none else some ((200 * u + n) / (2 * n))

/-- Mathematical rounding of a non-negative rational to the nearest natural number,
ties away from zero: `⌊q + 1/2⌋₊`. -/
def roundHalfUp (q : ℚ) : Nat := ⌊q + 1 / 2⌋₊

lemma roundHalfUp_nat_div (a b : Nat) (hb : b ≠ 0) :
    roundHalfUp ((100 * a : ℚ) / b) = (200 * a + b) / (2 * b) := by
  have hb' : (b : ℚ) ≠ 0 := Nat.cast_ne_zero.mpr hb
  have h : (100 * a : ℚ) / b + 1 / 2 = ((200 * a + b : ℕ) : ℚ) / ((2 * b : ℕ) : ℚ) := by
    push_cast
    field_simp
    ring
  rw [roundHalfUp, h, Nat.floor_div_eq_div]

/-! ## Dashboard client: `static/main.js` -/

/-- One entry of the `ips` array in the `/api/check_all` response, holding exactly
the fields `fetchAndRender` reads: `id`, `ip`, `name`, `device_type`, `importance`,
`last_status`, `last_ping_ms`, `last5`, `last60`, `last_checked`.  JSON `null` /
absent string fields are `none`; numbers are modelled as rationals. -/
structure IpEntry where
  id : Nat
  ip : String
  name : Option String
  device_type : Option String
  importance : Option String
  last_status : Option String
  last_ping_ms : Option ℚ
  last5 : ℚ
  last60 : ℚ
  last_checked : Option String
  deriving Repr, DecidableEq

/-- The field names of the TargetProjection as the specification lists them
(spec side, for comparison with the rendered row). -/
def projectionFields : List String :=
  ["id", "address", "name", "device_type", "importance", "last_status",
   "last_ping_ms", "last5", "last60", "last_checked"]

/-- Content of one rendered `<td>`: either a hyperlink (`<a href>` plus its text),
plain text, or the locale rendering of a timestamp (`new Date(s).toLocaleString()`,
kept symbolic). -/
inductive CellContent where
  | link (href : String) (text : String)
  | text (s : String)
  | dateText (iso : String)
  deriving Repr, DecidableEq

/-- One rendered `<td>`: its CSS class (if one is assigned) and its content. -/
structure Cell where
  className : Option String
  content : CellContent
  deriving Repr, DecidableEq

/-- One rendered `<tr>`: its CSS class and its cells. -/
structure Row where
  className : String
  cells : List Cell
  deriving Repr, DecidableEq

/-- JavaScript `x || '-'` on a nullable string: `null`, absent and the empty string
are falsy, so all three render as `"-"`. -/
def orDash : Option String → String
  | none => "-"
  | some s => if s = "" then "-" else s

/-- `ip.last_ping_ms === null ? '-' : ip.last_ping_ms` (main.js line 28): only
`null` renders as `"-"`; any number, including `0`, renders as itself. -/
def pingText : Option ℚ → String
  | none => "-"
  | some q => toString q

/-- `ip.last_checked ? new Date(ip.last_checked).toLocaleString() : '-'`
(main.js line 32): falsy (`null` or empty string) renders as `"-"`. -/
def checkedContent : Option String → CellContent
  | none => .text "-"
  | some s => if s = "" then .text "-" else .dateText s

/-- `tr.className = ip.last_status === 'down' ? 'down' : 'up'` (main.js line 14). -/
def rowClass (last_status : Option String) : String :=
  if last_status = some "down" then "down" else "up"

/-- `ip.last5 < 95 ? 'bad' : 'good'` (main.js lines 29 and 30). -/
def pctClass (v : ℚ) : String :=
  if v < 95 then "bad" else "good"

/-- The row `fetchAndRender` builds for one entry (main.js lines 13-46): the `<tr>`
class from `last_status`, then nine `<td>` cells appended in order — the address
hyperlinked to `/ip/{id}`, name, device_type, importance, status (class `status`),
ping, last5 and last60 (each classed by the 95-percent threshold, text suffixed
with `%`), and the formatted last_checked timestamp. -/
def renderRow (ip : IpEntry) : Row :=
  { className := rowClass ip.last_status
  , cells :=
    [ { className := none, content := .link ("/ip/" ++ toString ip.id) ip.ip }
    , { className := none, content := .text (orDash ip.name) }
    , { className := none, content := .text (orDash ip.device_type) }
    , { className := none, content := .text (orDash ip.importance) }
    , { className := some "status", content := .text (orDash ip.last_status) }
    , { className := none, content := .text (pingText ip.last_ping_ms) }
    , { className := some (pctClass ip.last5), content := .text (toString ip.last5 ++ "%") }
    , { className := some (pctClass ip.last60), content := .text (toString ip.last60 ++ "%") }
    , { className := none, content := checkedContent ip.last_checked } ] }

/-- How one invocation of `fetchAndRender` resolves: the `fetch` promise rejects,
`resp.json()` rejects, or a JSON body is obtained (whose `ips` field may be
absent, in which case `data.ips || []` yields the empty list). -/
inductive FetchOutcome where
  | fetchError
  | jsonError
  | parsed (ips : Option (List IpEntry))
  deriving Repr, DecidableEq

/-- The dashboard `<tbody>`: `none` when `document.getElementById` found no
`dashboard-body` element, otherwise its current list of rows. -/
def DomState := Option (List Row)

/-- Effect of one `fetchAndRender` invocation (main.js lines 5-49) on the table.
The `try` block awaits `fetch` and `resp.json()`; a rejection of either lands in
the `catch`, which only logs — the table is untouched and nothing is re-thrown
(the function is total here).  Only after a successful parse does the code clear
`dashboardBody.innerHTML` and append one rendered row per entry; a missing
`dashboardBody` makes it return before touching anything. -/
def fetchAndRender (outcome : FetchOutcome) (dom : DomState) : DomState :=
  match outcome with
  | .fetchError => dom
  | .jsonError => dom
  | .parsed ips =>
    match dom with
    | none => none
    | some _ => some (((ips.getD []).map renderRow))

/-! ## Sweep triggers and overlap (main.js lines 51-60) -/

/-- The three DOM triggers main.js wires up: the window `load` event, a `click` on
the `btn-refresh` button, and a `setInterval` timer with its period in
milliseconds. -/
inductive Trigger where
  | pageLoad
  | refreshClick
  | intervalTimer (ms : Nat)
  deriving Repr, DecidableEq

/-- The handlers installed at the bottom of main.js, as (trigger, handler) pairs
where the handler is identified by name: `window.addEventListener('load', ...)`
calls `fetchAndRender`; `btnRefresh.addEventListener('click', fetchAndRender)` is
installed only when the button element exists; `setInterval(fetchAndRender, 30000)`
is installed unconditionally. -/
def mainSetup (btnRefreshPresent : Bool) : List (Trigger × String) :=
  [(Trigger.pageLoad, "fetchAndRender")]
    ++ (if btnRefreshPresent then [(Trigger.refreshClick, "fetchAndRender")] else [])
    ++ [(Trigger.intervalTimer 30000, "fetchAndRender")]

/-- An event-loop event affecting sweep concurrency: a registered trigger fires
(starting a `fetchAndRender` invocation), or one active invocation's promise chain
resolves and the invocation finishes. -/
inductive SweepEvent where
  | fire (t : Trigger)
  | finish
  deriving Repr, DecidableEq

/-- Number of `fetchAndRender` invocations in flight after one event.  main.js has
no single-flight flag, queue or latch: every trigger's handler is `fetchAndRender`
itself, whose body starts executing unconditionally — it never inspects whether
another invocation is still awaiting its fetch — so a firing trigger always adds
an in-flight invocation, whatever the current count. -/
def stepSweep (active : Nat) : SweepEvent → Nat
  | .fire _ => active + 1
  | .finish => active - 1

/-- In-flight invocation count after a sequence of events, starting idle. -/
def runSweeps (events : List SweepEvent) : Nat :=
  events.foldl stepSweep 0

/-- Number of `up` records in a history slice (the numerator of §4.4's formula). -/
def upCount (l : List PingHistoryRow) : Nat :=
  (l.filter (fun r => r.status = "up")).length

/-! ## Theorems -/

/-- C3: deleting a target deletes every `ping_history` row whose `ip_id` refers to
it (the schema's `ON DELETE CASCADE` under `PRAGMA foreign_keys = ON`), and the
foreign-key invariant — no CheckRecord references a non-existent target — is
preserved by the deletion. -/
theorem deleteIp_cascades (db : Db) (tid : Nat) (hfk : fkHolds db) :
    (∀ r ∈ (deleteIp db tid).ping_history, r.ip_id ≠ tid) ∧
    (∀ t ∈ (deleteIp db tid).ips, t.id ≠ tid) ∧
    fkHolds (deleteIp db tid) := by
  refine ⟨?_, ?_, ?_⟩
  · intro r hr
    simp only [deleteIp, List.mem_filter, decide_eq_true_eq] at hr
    exact hr.2
  · intro t ht
    simp only [deleteIp, List.mem_filter, decide_eq_true_eq] at ht
    exact ht.2
  · intro r hr
    simp only [deleteIp, List.mem_filter, decide_eq_true_eq] at hr ⊢
    obtain ⟨t, ht, htid⟩ := hfk r hr.1
    exact ⟨t, ⟨ht, by omega⟩, htid⟩

/-- Witness for C3 at a concrete database. -/
theorem deleteIp_cascades_witness :
    fkHolds ⟨[⟨1, "8.8.8.8", none, none, none, none, none, none, none⟩,
              ⟨2, "1.1.1.1", none, none, none, none, none, none, none⟩],
             [⟨1, 1, "t1", "up", some 12⟩, ⟨2, 2, "t2", "down", none⟩]⟩ ∧
    fkHolds (deleteIp ⟨[⟨1, "8.8.8.8", none, none, none, none, none, none, none⟩,
              ⟨2, "1.1.1.1", none, none, none, none, none, none, none⟩],
             [⟨1, 1, "t1", "up", some 12⟩, ⟨2, 2, "t2", "down", none⟩]⟩ 1) :=
  ⟨by decide,
   (deleteIp_cascades ⟨[⟨1, "8.8.8.8", none, none, none, none, none, none, none⟩,
              ⟨2, "1.1.1.1", none, none, none, none, none, none, none⟩],
             [⟨1, 1, "t1", "up", some 12⟩, ⟨2, 2, "t2", "down", none⟩]⟩ 1 (by decide)).2.2⟩

/-- C4: under the schema's `UNIQUE` constraint on `ips.ip`, a stored table with
pairwise-distinct addresses stays pairwise distinct across a successful insert,
and inserting a row whose address already exists is rejected with a constraint
conflict (and hence produces no new state). -/
theorem insertIp_addr_unique (db : Db) (row : IpRow) (hu : addrUnique db) :
    ((∃ t ∈ db.ips, t.ip = row.ip) →
      insertIp db row = .error "UNIQUE constraint failed: ips.ip") ∧
    (∀ db2, insertIp db row = .ok db2 →
      addrUnique db2 ∧ row ∈ db2.ips ∧ ∀ t ∈ db.ips, t.ip ≠ row.ip) := by
  constructor
  · intro ⟨t, ht, hip⟩
    have hany : db.ips.any (fun t => t.ip = row.ip) = true :=
      List.any_eq_true.mpr ⟨t, ht, by simp [hip]⟩
    simp [insertIp, hany]
  · intro db2 hok
    by_cases h1 : db.ips.any (fun t => t.ip = row.ip) = true
    · simp [insertIp, h1] at hok
    by_cases h2 : db.ips.any (fun t => t.id = row.id) = true
    · simp [insertIp, h1, h2] at hok
    have hne : ∀ t ∈ db.ips, t.ip ≠ row.ip := by
      intro t ht
      have := (List.any_eq_false).mp (Bool.eq_false_iff.mpr h1) t ht
      simpa using this
    have hdb2 : db2 = { db with ips := db.ips ++ [row] } := by
      simp [insertIp, h1, h2] at hok
      exact hok.symm
    subst hdb2
    refine ⟨?_, by simp, hne⟩
    unfold addrUnique at hu ⊢
    simp only [List.pairwise_append, List.pairwise_singleton, List.mem_singleton]
    exact ⟨hu, by simp, fun a ha b hb => by simp [hb]; exact hne a ha⟩

/-- Witness for C4: inserting a duplicate of `8.8.8.8` into a registry already
holding it is rejected as a conflict. -/
theorem insertIp_addr_unique_witness :
    insertIp ⟨[⟨1, "8.8.8.8", none, none, none, none, none, none, none⟩], []⟩
        ⟨3, "8.8.8.8", some "dup", none, none, none, none, none, none⟩ =
      .error "UNIQUE constraint failed: ips.ip" :=
  (insertIp_addr_unique
    ⟨[⟨1, "8.8.8.8", none, none, none, none, none, none, none⟩], []⟩
    ⟨3, "8.8.8.8", some "dup", none, none, none, none, none, none⟩ (by decide)).1
    ⟨⟨1, "8.8.8.8", none, none, none, none, none, none, none⟩, by decide, rfl⟩

/-- C2: on every nonempty window, `windowStats` equals
`round(100 * upCount / count)` with ties rounded half away from zero (for a
non-negative quotient, `⌊q + 1/2⌋₊`); in particular every 3-record history with
2 `up` and 1 `down` yields `last5 = 67`. -/
theorem windowStats_rounds (records : List PingHistoryRow) (w : Nat)
    (h : records.take w ≠ []) :
    windowStats records w =
      some (roundHalfUp ((100 * (upCount (records.take w)) : ℚ) / (records.take w).length)) ∧
    (∀ recs : List PingHistoryRow, recs.length = 3 → upCount recs = 2 →
      windowStats recs 5 = some 67) := by
  constructor
  · have hn : (records.take w).length ≠ 0 := by
      simpa [List.length_eq_zero] using h
    rw [roundHalfUp_nat_div _ _ hn]
    simp only [windowStats, upCount]
    rw [if_neg hn]
  · intro recs hlen hup
    have htake : recs.take 5 = recs := List.take_of_length_le (by omega)
    simp only [windowStats, upCount] at hup ⊢
    rw [htake, hlen, hup]
    norm_num

/-- Witness for C2: a concrete 3-record history with 2 `up` and 1 `down` gives 67,
and the rounding identity holds on it. -/
theorem windowStats_rounds_witness :
    windowStats [⟨1, 1, "a", "up", some 1⟩, ⟨2, 1, "b", "up", some 2⟩,
      ⟨3, 1, "c", "down", none⟩] 5 = some 67 :=
  (windowStats_rounds [⟨1, 1, "a", "up", some 1⟩, ⟨2, 1, "b", "up", some 2⟩,
      ⟨3, 1, "c", "down", none⟩] 5 (by decide)).2
    [⟨1, 1, "a", "up", some 1⟩, ⟨2, 1, "b", "up", some 2⟩, ⟨3, 1, "c", "down", none⟩]
    (by decide) (by decide)

/-- C5: `fetchAndRender` is wired to the page-load event and to an interval timer
of exactly 30000 ms in every configuration, to the refresh button's click whenever
the button exists, and nothing else is wired: every installed handler is
`fetchAndRender`, and every installed interval has period 30000 ms. -/
theorem mainSetup_triggers (b : Bool) :
    (Trigger.pageLoad, "fetchAndRender") ∈ mainSetup b ∧
    (Trigger.intervalTimer 30000, "fetchAndRender") ∈ mainSetup b ∧
    (b = true → (Trigger.refreshClick, "fetchAndRender") ∈ mainSetup b) ∧
    (∀ ms h, (Trigger.intervalTimer ms, h) ∈ mainSetup b → ms = 30000) ∧
    (∀ t h, (t, h) ∈ mainSetup b → h = "fetchAndRender") := by
  cases b <;>
    refine ⟨by simp [mainSetup], by simp [mainSetup], by simp [mainSetup], ?_, ?_⟩ <;>
    · intro x h hx
      simp [mainSetup] at hx
      rcases hx with h1 | h1 | h1 <;> simp_all

/-- Witness for C5 with the refresh button present. -/
theorem mainSetup_triggers_witness :
    (Trigger.refreshClick, "fetchAndRender") ∈ mainSetup true :=
  (mainSetup_triggers true).2.2.1 rfl

/-- C1 counterexample: the claim that two sweeps never execute concurrently is
false for the code.  Firing the interval timer while the refresh-click sweep is
still in flight leaves two `fetchAndRender` invocations active at once — no
trigger is skipped, queued, or delayed. -/
theorem sweeps_overlap_counterexample :
    runSweeps [SweepEvent.fire Trigger.refreshClick,
      SweepEvent.fire (Trigger.intervalTimer 30000)] = 2 ∧
    ¬ (∀ evs : List SweepEvent, runSweeps evs ≤ 1) := by
  refine ⟨by decide, fun h => ?_⟩
  have := h [SweepEvent.fire Trigger.refreshClick,
    SweepEvent.fire (Trigger.intervalTimer 30000)]
  simp [runSweeps, stepSweep] at this

/-- C1 (amended): main.js has no single-flight guard at all — every trigger
firing starts one more `fetchAndRender` invocation regardless of how many are
already active, so the number of concurrently active sweeps is bounded only by
the number of trigger firings: `n` back-to-back firings leave `n` sweeps in
flight. -/
theorem sweeps_unguarded :
    (∀ active t, stepSweep active (SweepEvent.fire t) = active + 1) ∧
    (∀ n, runSweeps (List.replicate n (SweepEvent.fire Trigger.pageLoad)) = n) := by
  constructor
  · intro active t; rfl
  · have key : ∀ n a, List.foldl stepSweep a
        (List.replicate n (SweepEvent.fire Trigger.pageLoad)) = a + n := by
      intro n
      induction n with
      | zero => intro a; simp
      | succ k ih =>
        intro a
        rw [List.replicate_succ, List.foldl_cons, ih]
        simp [stepSweep]; omega
    intro n
    simpa [runSweeps] using key n 0

/-- C6 counterexample: the renderer does not emit one table cell per listed
projection field — a concrete entry renders as nine cells while the field set
has ten members (`id` and `address` share the first cell). -/
theorem render_cells_counterexample :
    (renderRow ⟨1, "8.8.8.8", some "Google DNS", some "other", some "important",
        some "up", some 12, 100, 100, some "2024-01-01T00:00:00"⟩).cells.length = 9 ∧
    projectionFields.length = 10 ∧
    ¬ ((renderRow ⟨1, "8.8.8.8", some "Google DNS", some "other", some "important",
        some "up", some 12, 100, 100, some "2024-01-01T00:00:00"⟩).cells.length =
      projectionFields.length) := by
  refine ⟨rfl, rfl, by simp [renderRow, projectionFields]⟩

/-- C6 (amended): for every entry, the renderer emits exactly nine cells — one
fewer than the ten listed projection fields, because `id` and `address` share the
first cell as a hyperlink (`/ip/{id}` carrying the id, the address as link text) —
and the remaining eight fields each occupy their own cell, in order: name,
device_type, importance, last_status, last_ping_ms, last5, last60, last_checked;
the whole returned list is rendered one row per entry. -/
theorem renderRow_cells (e : IpEntry) :
    (renderRow e).cells.length + 1 = projectionFields.length ∧
    ((renderRow e).cells.map Cell.content) =
      [ .link ("/ip/" ++ toString e.id) e.ip
      , .text (orDash e.name)
      , .text (orDash e.device_type)
      , .text (orDash e.importance)
      , .text (orDash e.last_status)
      , .text (pingText e.last_ping_ms)
      , .text (toString e.last5 ++ "%")
      , .text (toString e.last60 ++ "%")
      , checkedContent e.last_checked ] ∧
    (∀ ips rows, fetchAndRender (FetchOutcome.parsed (some ips)) (some rows) =
      some (ips.map renderRow)) :=
  ⟨rfl, rfl, fun _ _ => rfl⟩

/-- C7: every CheckRecord the Orchestrator appends has `ping_ms` present exactly
when its status is `up` — in particular a `down` record has no `ping_ms` — the
invariant is preserved across appends to the history table, and the dashboard
renders a `null` `last_ping_ms` as the dash placeholder while any number renders
as that number. -/
theorem ping_present_iff_up :
    (∀ rid tid ts o, pingPresentIffUp (recordOfOutcome rid tid ts o)) ∧
    (∀ rid tid ts, (recordOfOutcome rid tid ts CheckOutcome.down).ping_ms = none) ∧
    (∀ db rid tid ts o, (∀ r ∈ db.ping_history, pingPresentIffUp r) →
      ∀ r ∈ (appendOutcome db rid tid ts o).ping_history, pingPresentIffUp r) ∧
    pingText none = "-" ∧
    (∀ q : ℚ, pingText (some q) = toString q) := by
  refine ⟨?_, fun _ _ _ => rfl, ?_, rfl, fun _ => rfl⟩
  · intro rid tid ts o
    cases o <;> simp [recordOfOutcome, pingPresentIffUp]
  · intro db rid tid ts o hinv r hr
    simp only [appendOutcome, List.mem_append, List.mem_singleton] at hr
    rcases hr with hr | hr
    · exact hinv r hr
    · subst hr
      cases o <;> simp [recordOfOutcome, pingPresentIffUp]

/-- Witness for C7: the invariant, applied through a concrete append of a `down`
outcome onto an empty history. -/
theorem ping_present_iff_up_witness :
    pingPresentIffUp (recordOfOutcome 1 2 "t" CheckOutcome.down) :=
  ping_present_iff_up.2.2.1 ⟨[], []⟩ 1 2 "t" CheckOutcome.down
    (by simp) (recordOfOutcome 1 2 "t" CheckOutcome.down) (by simp [appendOutcome])

/-- C8: when the fetch or the JSON parsing rejects, `fetchAndRender` lands in its
`catch` (total here: no exception escapes to the caller) and the table keeps its
previously rendered rows; the table is cleared and repopulated only on the
successfully-parsed path. -/
theorem fetchAndRender_failure_preserves (dom : DomState) :
    fetchAndRender FetchOutcome.fetchError dom = dom ∧
    fetchAndRender FetchOutcome.jsonError dom = dom ∧
    (∀ ips rows, fetchAndRender (FetchOutcome.parsed ips) (some rows) =
      some ((ips.getD []).map renderRow)) :=
  ⟨rfl, rfl, fun _ _ => rfl⟩

/-- C9: a rendered row's class is `down` exactly when `last_status` is the string
`down`, and `up` in every other case — including `unknown` and a missing status,
which therefore share the class of a healthy target. -/
theorem rowClass_down_iff :
    (∀ s, rowClass s = "down" ↔ s = some "down") ∧
    (∀ s, s ≠ some "down" → rowClass s = "up") ∧
    rowClass (some "unknown") = "up" ∧
    rowClass none = "up" ∧
    (∀ e : IpEntry, (renderRow e).className = rowClass e.last_status) := by
  refine ⟨?_, ?_, rfl, rfl, fun _ => rfl⟩
  · intro s
    by_cases h : s = some "down" <;> simp [rowClass, h]
  · intro s h
    simp [rowClass, h]

/-- Witness for C9: a target whose status is `unknown` is classed `up`. -/
theorem rowClass_down_iff_witness :
    rowClass (some "unknown") = "up" :=
  rowClass_down_iff.2.1 (some "unknown") (by decide)

/-- C10: a percentage cell is classed `bad` exactly when its value is strictly
below 95 and `good` exactly when it is at least 95, and the rendered row applies
this threshold to the last5 and last60 cells (and to no other cell). -/
theorem pctClass_threshold :
    (∀ v : ℚ, pctClass v = "bad" ↔ v < 95) ∧
    (∀ v : ℚ, pctClass v = "good" ↔ 95 ≤ v) ∧
    (∀ e : IpEntry, ((renderRow e).cells.map Cell.className) =
      [none, none, none, none, some "status", none,
       some (pctClass e.last5), some (pctClass e.last60), none]) := by
  refine ⟨?_, ?_, fun _ => rfl⟩
  · intro v
    by_cases h : v < 95 <;> simp [pctClass, h]
  · intro v
    by_cases h : v < 95
    · simp only [pctClass, if_pos h]
      constructor
      · intro hc; exact absurd hc (by decide)
      · intro hle; exact absurd h (not_lt.mpr hle)
    · simp [pctClass, if_neg h, not_lt.mp h]

/-- Witness for C10: 67 percent is classed `bad`, 100 percent `good`. -/
theorem pctClass_threshold_witness :
    pctClass 67 = "bad" ∧ pctClass 100 = "good" :=
  ⟨(pctClass_threshold.1 67).mpr (by norm_num),
   (pctClass_threshold.2.1 100).mpr (by norm_num)⟩
